import Mathlib

/-!
Verification of the conversation-turn engine of the MedicalBot frontend
(`src/frontend/script.js`): session-state threading, the action dispatcher,
transcript updates and the turn-taking discipline, modelled as a shallow
embedding over a JavaScript-value type.
-/

namespace MedBot

/-- JavaScript values as they arise from JSON parsing and property access
(`undefined` is the result of reading an absent property; numbers are modelled
as integers, which covers every value the claims exercise). -/
inductive JSVal where
  | undefined
  | null
  | bool (b : Bool)
  | num (n : Int)
  | str (s : String)
  | arr (xs : List JSVal)
  | obj (fs : List (String × JSVal))
deriving Repr

/-- JavaScript truthiness. -/
def truthy : JSVal → Bool
  | .undefined => false
  | .null => false
  | .bool b => b
  | .num n => n != 0
  | .str s => s != ""
  | .arr _ => true
  | .obj _ => true

/-- Property access `v.k`: a missing key, or access on a non-null non-object
value that has no such property, yields `undefined`.  (The source only
dereferences properties of `null`/`undefined` in `sendMessage`, where the
resulting TypeError is modelled explicitly.) -/
def JSVal.get (v : JSVal) (k : String) : JSVal :=
  match v with
  | .obj fs => match fs.lookup k with
    | some x => x
    | none => .undefined
  | _ => .undefined

/-- JavaScript `a || b`. -/
def jsOr (a b : JSVal) : JSVal := if truthy a then a else b

/-- Strict comparison `v === t` against a string literal `t`. -/
def isStr (v : JSVal) (t : String) : Bool :=
  match v with
  | .str s => s == t
  | _ => false

/-- `Array.isArray`. -/
def isArr : JSVal → Bool
  | .arr _ => true
  | _ => false

/-- `null` or `undefined`: the values whose property access throws. -/
def isNullish : JSVal → Bool
  | .null => true
  | .undefined => true
  | _ => false

mutual

/-- The string produced by assigning a value to `Element.textContent`
(WebIDL DOMString conversion: `undefined` becomes the text "undefined",
`null` the empty string, arrays join their elements with commas). -/
def textContentStr : JSVal → String
  | .undefined => "undefined"
  | .null => ""
  | .bool b => cond b "true" "false"
  | .num n => toString n
  | .str s => s
  | .arr xs => arrJoin xs
  | .obj _ => "[object Object]"

/-- `Array.prototype.toString`: elements joined with commas. -/
def arrJoin : List JSVal → String
  | [] => ""
  | [v] => elemTxt v
  | v :: vs => elemTxt v ++ "," ++ arrJoin vs

/-- One array element as rendered by `Array.prototype.join`: `null` and
`undefined` elements render as the empty string. -/
def elemTxt : JSVal → String
  | .null => ""
  | .undefined => ""
  | v => textContentStr v

end

/-- A selectable option as derived by `addOptionsToChat`: `label` is what is
written to the button's `textContent`; `value` is what `sendMessage`
receives when the button is clicked. -/
structure OptionItem where
  label : String
  value : JSVal
deriving Repr

/-- The Interaction Mode of the specification, derived from the dispatch
result of the latest successful turn. -/
inductive Mode where
  | FreeText
  | ClosedOptions (opts : List OptionItem)
  | ConversationEnded (restart : OptionItem)
deriving Repr

/-- A rendered in-chat option button (`.chat-option-button`): its label,
the value its first click listener passes to `sendMessage`, its `disabled`
flag, and whether the `conversation_end` branch attached the extra restart
listener (which resets `userData` and re-enables the inputs). -/
structure ChatButton where
  label : String
  value : JSVal
  disabled : Bool
  resetOnClick : Bool
deriving Repr

/-- One child of the `chatMessages` container. -/
inductive Entry where
  | bot (s : String)
  | user (s : String)
  | errDiv (s : String)
  | typing (tid : Nat)
  | group (bs : List ChatButton)
deriving Repr

/-- The request body built by `sendMessage` (`rid` identifies the in-flight
call it belongs to). -/
structure TurnRequest where
  rid : Nat
  message : JSVal
  user_data : JSVal
deriving Repr

/-- The outcome of the `fetch` round trip, classified as the `catch` block
of `sendMessage` observes it: client-side timeout (`AbortError`), network
failure (`Failed to fetch`), non-2xx status (`!response.ok`), a body that
`response.json()` cannot parse, or a parsed JSON body. -/
inductive FetchResult where
  | timeout
  | netError
  | httpError (code : Nat)
  | badJson
  | ok (body : JSVal)
deriving Repr

/-- The whole client state: the session-state variable `userData`, the
`chatMessages` transcript, the disabled flags of `userInput`/`sendButton`,
the derived Interaction Mode, the set of in-flight requests, and a counter
for fresh request identities. -/
structure ClientState where
  userData : JSVal
  transcript : List Entry
  inputDisabled : Bool
  mode : Mode
  pending : List TurnRequest
  nextId : Nat
deriving Repr

/-- `let userData = { state: null }` — the initial session state, also
assigned by the restart listener. -/
def initUserData : JSVal := .obj [("state", .null)]

def initState : ClientState :=
  { userData := initUserData, transcript := [], inputDisabled := false,
    mode := .FreeText, pending := [], nextId := 0 }

/-- The effect computed by one branch of `handleAction`. -/
inductive ActionResult where
  | renderOptions (opts : List OptionItem)
  | inlineError (msg : String)
  | convEnd (opts : List OptionItem)
  | noAction
deriving Repr

/-- The per-entry coercion of `addOptionsToChat`:
`button.textContent = option.text || option` and
`const value = option.value || option`. -/
def coerceOption (o : JSVal) : OptionItem :=
  ⟨textContentStr (jsOr (o.get "text") o), jsOr (o.get "value") o⟩

/-- `addOptionsToChat(options)`: iterates with `options.forEach`, so a
non-array argument (every truthy non-array JSON value) throws a TypeError,
modelled as `Except.error`. -/
def addOptionsToChat (options : JSVal) : Except Unit (List OptionItem) :=
  match options with
  | .arr xs => .ok (xs.map coerceOption)
  | _ => .error ()

/-- `handleAction(action, data)`: the if/else chain of the dispatcher, in
source order.  A thrown TypeError propagates as `Except.error` to the
caller (`sendMessage`'s catch block). -/
def handleAction (action data : JSVal) : Except Unit ActionResult :=
  if isStr action "offer_booking" then
    (addOptionsToChat (.arr [.obj [("text", .str "Yes"), ("value", .str "Yes")],
                             .obj [("text", .str "No"), ("value", .str "No")]])).map .renderOptions
  else if isStr action "show_existing_appointment" then
    (addOptionsToChat (.arr [.obj [("text", .str "Cancel Appointment"), ("value", .str "cancel")],
                             .obj [("text", .str "Book New Appointment"),
                                   ("value", .str "book new appointment")]])).map .renderOptions
  else if isStr action "confirm_cancellation" then
    (addOptionsToChat (.arr [.obj [("text", .str "Yes, Cancel"), ("value", .str "yes")],
                             .obj [("text", .str "No, Keep"), ("value", .str "no")]])).map .renderOptions
  else if isStr action "show_options" && truthy data && truthy (data.get "options") then
    (addOptionsToChat (data.get "options")).map .renderOptions
  else if isStr action "request_department" then
    (addOptionsToChat (.arr [.str "Cardiology", .str "Neurology",
                             .str "General Physician"])).map .renderOptions
  else if isStr action "request_doctor" then
    if truthy data && truthy (data.get "doctors") && isArr (data.get "doctors") then
      (addOptionsToChat (data.get "doctors")).map .renderOptions
    else
      .ok (.inlineError "Error: No department specified. Please type your selection.")
  else if isStr action "request_date" && truthy data && truthy (data.get "available_dates") then
    (addOptionsToChat (data.get "available_dates")).map .renderOptions
  else if isStr action "request_time" && truthy data && truthy (data.get "available_slots") then
    (addOptionsToChat (data.get "available_slots")).map .renderOptions
  else if isStr action "show_appointments" then
    (addOptionsToChat (.arr [.obj [("text", .str "Cancel Appointment"), ("value", .str "cancel")],
                             .obj [("text", .str "Book New Appointment"),
                                   ("value", .str "book new appointment")]])).map .renderOptions
  else if isStr action "conversation_end" then
    (addOptionsToChat (.arr [.obj [("text", .str "Start New Conversation"),
                                   ("value", .str "Hello")]])).map .convEnd
  else
    .ok .noAction

/-- The ten action tags that have a branch in `handleAction`. -/
def recognizedTags : List String :=
  ["offer_booking", "show_existing_appointment", "confirm_cancellation",
   "show_options", "request_department", "request_doctor", "request_date",
   "request_time", "show_appointments", "conversation_end"]

/-- Disabling pass of `sendMessage` over every `.chat-option-button`. -/
def disableEntry : Entry → Entry
  | .group bs => .group (bs.map fun b => { b with disabled := true })
  | e => e

/-- Diagnostic texts of the `catch` block and of `initChat`. -/
def timeoutMsg : String :=
  "The server is taking too long to respond. Please check if the backend is running properly."

def networkMsg : String :=
  "Cannot connect to the server. Please make sure the backend is running at http://localhost:8000"

def genericErrMsg : String := "Sorry, there was an error processing your request."

def welcomeMsg : String := "Welcome to the Medical Appointment Booking System!"

def loadingMsg : String := "Connecting to server..."

/-- Remove the first entry satisfying `p` (a single `removeChild`). -/
def removeFirstSuch (p : Entry → Bool) : List Entry → List Entry
  | [] => []
  | e :: es => if p e then es else e :: removeFirstSuch p es

/-- `chatMessages.removeChild(typingIndicator)` on the indicator this call
appended. -/
def removeTypingId (tid : Nat) (l : List Entry) : List Entry :=
  removeFirstSuch (fun e => match e with | .typing j => j == tid | _ => false) l

/-- `document.querySelector('.typing-indicator')` removal in the catch
block: the first indicator in the document, if any. -/
def removeFirstTyping (l : List Entry) : List Entry :=
  removeFirstSuch (fun e => match e with | .typing _ => true | _ => false) l

/-- Texts of the `.bot-message` entries, in order. -/
def botTexts : List Entry → List String
  | [] => []
  | .bot s :: es => s :: botTexts es
  | _ :: es => botTexts es

/-- Texts of the `.user-message` entries, in order. -/
def userTexts : List Entry → List String
  | [] => []
  | .user s :: es => s :: userTexts es
  | _ :: es => userTexts es

/-- Mark the last button of a group with the restart listener. -/
def markLast : List ChatButton → List ChatButton
  | [] => []
  | [b] => [{ b with resetOnClick := true }]
  | b :: bs => b :: markLast bs

/-- `document.querySelectorAll('.chat-option-button')` and attaching the
restart listener to the last button in the document, guarded by
`restartButtons.length > 0` (reversed-list worker). -/
def markLastDocAux : List Entry → List Entry
  | [] => []
  | .group (b :: bs) :: es => .group (markLast (b :: bs)) :: es
  | e :: es => e :: markLastDocAux es

def markLastDoc (l : List Entry) : List Entry :=
  (markLastDocAux l.reverse).reverse

def toButtons (opts : List OptionItem) : List ChatButton :=
  opts.map fun o => ⟨o.label, o.value, false, false⟩

/-- The state update that realises one `ActionResult`:
`addOptionsToChat` appends the buttons, the `request_doctor` fallback
appends the error div, and the `conversation_end` branch disables the
inputs and attaches the restart listener.  The `mode` field records the
Interaction Mode the result corresponds to. -/
def applyResult (st : ClientState) : ActionResult → ClientState
  | .renderOptions opts =>
      { st with transcript := st.transcript ++ [.group (toButtons opts)],
                mode := .ClosedOptions opts }
  | .inlineError msg =>
      { st with transcript := st.transcript ++ [.errDiv msg], mode := .FreeText }
  | .convEnd opts =>
      { st with inputDisabled := true,
                transcript := markLastDoc (st.transcript ++ [.group (toButtons opts)]),
                mode := .ConversationEnded (opts.headD ⟨"", .undefined⟩) }
  | .noAction => { st with mode := .FreeText }

/-- The synchronous prefix of `sendMessage(m)` up to `await fetch`: echo the
input unless it is the sentinel, disable every displayed option button,
build the request from the current `userData`, and append the typing
indicator.  Returns the new state and the identity of the started call. -/
def sendStart (st : ClientState) (m : JSVal) : ClientState × Nat :=
  let echo := if isStr m "Hello" then [] else [Entry.user (textContentStr m)]
  let req : TurnRequest := ⟨st.nextId, m, st.userData⟩
  ({ st with
      transcript := ((st.transcript ++ echo).map disableEntry) ++ [.typing st.nextId],
      pending := st.pending ++ [req],
      nextId := st.nextId + 1 }, st.nextId)

/-- The continuation of `sendMessage` after `await fetch` resolves with
`res` for call `tid`: remove the typing indicator, and either process the
parsed body (reply message, wholesale `userData` replacement, dispatch) or
fall into the catch block, which appends exactly one diagnostic message. -/
def sendFinish (st0 : ClientState) (tid : Nat) (res : FetchResult) : ClientState :=
  let st := { st0 with pending := st0.pending.filter fun r => r.rid != tid }
  match res with
  | .timeout =>
      { st with transcript := removeFirstTyping st.transcript ++ [.bot timeoutMsg] }
  | .netError =>
      { st with transcript := removeFirstTyping st.transcript ++ [.bot networkMsg] }
  | .httpError _ =>
      let t := removeTypingId tid st.transcript
      { st with transcript := removeFirstTyping t ++ [.bot genericErrMsg] }
  | .badJson =>
      let t := removeTypingId tid st.transcript
      { st with transcript := removeFirstTyping t ++ [.bot genericErrMsg] }
  | .ok body =>
      let t := removeTypingId tid st.transcript
      if isNullish body then
        { st with transcript := removeFirstTyping t ++ [.bot genericErrMsg] }
      else
        let reply := textContentStr (body.get "response")
        let st1 := { st with transcript := t ++ [.bot reply],
                             userData := jsOr (body.get "data") (.obj []) }
        match handleAction (body.get "action") (body.get "data") with
        | .ok r => applyResult st1 r
        | .error _ =>
            { st1 with
                transcript := removeFirstTyping st1.transcript ++ [.bot genericErrMsg] }

/-- One whole turn: `sendMessage(m)` through to its completion with `res`
(no interleaving). -/
def runTurn (st : ClientState) (m : JSVal) (res : FetchResult) : ClientState :=
  let p := sendStart st m
  sendFinish p.1 p.2 res

/-- A sequence of completed turns whose fetches returned parsed bodies. -/
def runOkTurns (st : ClientState) (turns : List (JSVal × JSVal)) : ClientState :=
  turns.foldl (fun s t => runTurn s t.1 (.ok t.2)) st

/-- A fetch outcome the catch block of `sendMessage` handles (a body that
parses to `null` throws on `data.response` and lands there too). -/
def isFailure : FetchResult → Bool
  | .ok body => isNullish body
  | _ => true

/-- Which diagnostic the catch block appends for each failure. -/
def diagnosticOf : FetchResult → String
  | .timeout => timeoutMsg
  | .netError => networkMsg
  | _ => genericErrMsg

/-- `userInput.value.trim()`: strip whitespace from both ends. -/
def jsTrim (s : String) : String :=
  ⟨((s.data.dropWhile Char.isWhitespace).reverse.dropWhile Char.isWhitespace).reverse⟩

/-- User-intent events: a free-text submission (`sendButton` click or Enter
keypress), a click on the `i`-th button of the `g`-th option group, and the
resolution of in-flight call `tid`. -/
inductive Event where
  | submitText (s : String)
  | clickOpt (g i : Nat)
  | complete (tid : Nat) (res : FetchResult)
deriving Repr

/-- The rendered option groups of a transcript, in document order. -/
def groupsL : List Entry → List (List ChatButton)
  | [] => []
  | .group bs :: es => bs :: groupsL es
  | _ :: es => groupsL es

/-- The rendered option groups, in document order. -/
def groupsOf (st : ClientState) : List (List ChatButton) :=
  groupsL st.transcript

/-- Every rendered option button is disabled. -/
def allBtnsDisabled (st : ClientState) : Bool :=
  (groupsOf st).all fun bs => bs.all (·.disabled)

def buttonAt (st : ClientState) (g i : Nat) : Option ChatButton :=
  ((groupsOf st).get? g).bind fun bs => bs.get? i

/-- The event-step function.  A disabled `sendButton`/`userInput` receives
no click/keypress, a disabled option button receives no click; a click on a
restart-marked button first runs the `addOptionsToChat` listener (the
synchronous prefix of `sendMessage(value)`) and then the restart listener
(`userData = { state: null }` and re-enabling the inputs). -/
def step (st : ClientState) : Event → ClientState
  | .submitText s =>
      if st.inputDisabled then st
      else
        let m := jsTrim s
        if m = "" then st else (sendStart st (.str m)).1
  | .clickOpt g i =>
      match buttonAt st g i with
      | none => st
      | some b =>
          if b.disabled then st
          else
            let st1 := (sendStart st b.value).1
            if b.resetOnClick then
              { st1 with userData := initUserData, inputDisabled := false }
            else st1
  | .complete tid res =>
      if st.pending.any fun r => r.rid == tid then sendFinish st tid res else st

/-- `initChat` up to the suspension of the bootstrap `sendMessage("Hello")`:
the welcome and loading messages, then the synchronous prefix of the
sentinel turn. -/
def initChatStart : ClientState × Nat :=
  sendStart { initState with transcript := [.bot welcomeMsg, .bot loadingMsg] } (.str "Hello")

/-- Remove the `n`-th `.bot-message` entry. -/
def removeNthBot (n : Nat) : List Entry → List Entry
  | [] => []
  | .bot s :: es => if n = 0 then es else .bot s :: removeNthBot (n - 1) es
  | e :: es => e :: removeNthBot n es

/-- The tail of `checkBackendConnection`: if there is more than one
`.bot-message` and the second-to-last one is the loading message, remove
it.  (The typing indicator also carries the `bot-message` class, but
`sendMessage` has always removed it by this point of the bootstrap flow.) -/
def removeLoading (st : ClientState) : ClientState :=
  let bots := botTexts st.transcript
  if 1 < bots.length ∧ bots.get? (bots.length - 2) = some loadingMsg then
    { st with transcript := removeNthBot (bots.length - 2) st.transcript }
  else st

/-- The whole bootstrap: `initChat`, the completion of the sentinel turn
with `res`, and the loading-message cleanup. -/
def bootstrapRun (res : FetchResult) : ClientState :=
  removeLoading (sendFinish initChatStart.1 initChatStart.2 res)

/-- Modelled from the spec text of the `show_options` coercion
(`label: text ?? entry, value: value ?? entry`): nullish coalescing falls
back to the whole entry only when the field is null or undefined. -/
def specNullishCoerce (o : JSVal) : OptionItem :=
  ⟨textContentStr (if isNullish (o.get "text") then o else o.get "text"),
   if isNullish (o.get "value") then o else o.get "value"⟩

/-! ### Transcript projection lemmas -/

theorem userTexts_append (a b : List Entry) :
    userTexts (a ++ b) = userTexts a ++ userTexts b := by
  induction a with
  | nil => rfl
  | cons e es ih => cases e <;> simp [userTexts, ih]

theorem botTexts_append (a b : List Entry) :
    botTexts (a ++ b) = botTexts a ++ botTexts b := by
  induction a with
  | nil => rfl
  | cons e es ih => cases e <;> simp [botTexts, ih]

theorem groupsL_append (a b : List Entry) :
    groupsL (a ++ b) = groupsL a ++ groupsL b := by
  induction a with
  | nil => rfl
  | cons e es ih => cases e <;> simp [groupsL, ih]

theorem userTexts_disable (l : List Entry) :
    userTexts (l.map disableEntry) = userTexts l := by
  induction l with
  | nil => rfl
  | cons e es ih => cases e <;> simp [userTexts, disableEntry, ih]

theorem botTexts_disable (l : List Entry) :
    botTexts (l.map disableEntry) = botTexts l := by
  induction l with
  | nil => rfl
  | cons e es ih => cases e <;> simp [botTexts, disableEntry, ih]

theorem userTexts_removeFirstSuch (p : Entry → Bool) (l : List Entry)
    (hp : ∀ s, p (.user s) = false) :
    userTexts (removeFirstSuch p l) = userTexts l := by
  induction l with
  | nil => rfl
  | cons e es ih =>
    by_cases h : p e
    · cases e <;> simp [removeFirstSuch, h, userTexts]
      · simp [hp] at h
    · cases e <;> simp [removeFirstSuch, h, userTexts, ih]

theorem botTexts_removeFirstSuch (p : Entry → Bool) (l : List Entry)
    (hp : ∀ s, p (.bot s) = false) :
    botTexts (removeFirstSuch p l) = botTexts l := by
  induction l with
  | nil => rfl
  | cons e es ih =>
    by_cases h : p e
    · cases e <;> simp [removeFirstSuch, h, botTexts]
      · simp [hp] at h
    · cases e <;> simp [removeFirstSuch, h, botTexts, ih]

theorem groupsL_removeFirstSuch (p : Entry → Bool) (l : List Entry)
    (hp : ∀ bs, p (.group bs) = false) :
    groupsL (removeFirstSuch p l) = groupsL l := by
  induction l with
  | nil => rfl
  | cons e es ih =>
    by_cases h : p e
    · cases e <;> simp [removeFirstSuch, h, groupsL]
      · simp [hp] at h
    · cases e <;> simp [removeFirstSuch, h, groupsL, ih]

theorem userTexts_removeFirstTyping (l : List Entry) :
    userTexts (removeFirstTyping l) = userTexts l :=
  userTexts_removeFirstSuch _ l fun _ => rfl

theorem botTexts_removeFirstTyping (l : List Entry) :
    botTexts (removeFirstTyping l) = botTexts l :=
  botTexts_removeFirstSuch _ l fun _ => rfl

theorem groupsL_removeFirstTyping (l : List Entry) :
    groupsL (removeFirstTyping l) = groupsL l :=
  groupsL_removeFirstSuch _ l fun _ => rfl

theorem userTexts_removeTypingId (tid : Nat) (l : List Entry) :
    userTexts (removeTypingId tid l) = userTexts l :=
  userTexts_removeFirstSuch _ l fun _ => rfl

theorem botTexts_removeTypingId (tid : Nat) (l : List Entry) :
    botTexts (removeTypingId tid l) = botTexts l :=
  botTexts_removeFirstSuch _ l fun _ => rfl

theorem groupsL_removeTypingId (tid : Nat) (l : List Entry) :
    groupsL (removeTypingId tid l) = groupsL l :=
  groupsL_removeFirstSuch _ l fun _ => rfl

theorem botTexts_removeNthBot (n : Nat) (l : List Entry) :
    botTexts (removeNthBot n l) = (botTexts l).eraseIdx n := by
  induction l generalizing n with
  | nil => cases n <;> rfl
  | cons e es ih =>
    cases e with
    | bot s =>
      cases n with
      | zero => simp [removeNthBot, botTexts]
      | succ k => simp [removeNthBot, botTexts, ih]
    | user s => simp [removeNthBot, botTexts, ih]
    | errDiv s => simp [removeNthBot, botTexts, ih]
    | typing t => simp [removeNthBot, botTexts, ih]
    | group bs => simp [removeNthBot, botTexts, ih]

theorem userTexts_removeNthBot (n : Nat) (l : List Entry) :
    userTexts (removeNthBot n l) = userTexts l := by
  induction l generalizing n with
  | nil => rfl
  | cons e es ih =>
    cases e with
    | bot s =>
      cases n with
      | zero => simp [removeNthBot, userTexts]
      | succ k => simp [removeNthBot, userTexts, ih]
    | user s => simp [removeNthBot, userTexts, ih]
    | errDiv s => simp [removeNthBot, userTexts, ih]
    | typing t => simp [removeNthBot, userTexts, ih]
    | group bs => simp [removeNthBot, userTexts, ih]

theorem userTexts_markLastDocAux (l : List Entry) :
    userTexts (markLastDocAux l) = userTexts l := by
  induction l with
  | nil => rfl
  | cons e es ih =>
    cases e with
    | group bs => cases bs <;> simp [markLastDocAux, userTexts, ih]
    | bot s => simp [markLastDocAux, userTexts, ih]
    | user s => simp [markLastDocAux, userTexts, ih]
    | errDiv s => simp [markLastDocAux, userTexts, ih]
    | typing t => simp [markLastDocAux, userTexts, ih]

theorem botTexts_markLastDocAux (l : List Entry) :
    botTexts (markLastDocAux l) = botTexts l := by
  induction l with
  | nil => rfl
  | cons e es ih =>
    cases e with
    | group bs => cases bs <;> simp [markLastDocAux, botTexts, ih]
    | bot s => simp [markLastDocAux, botTexts, ih]
    | user s => simp [markLastDocAux, botTexts, ih]
    | errDiv s => simp [markLastDocAux, botTexts, ih]
    | typing t => simp [markLastDocAux, botTexts, ih]

theorem userTexts_reverse (l : List Entry) :
    userTexts l.reverse = (userTexts l).reverse := by
  induction l with
  | nil => rfl
  | cons e es ih => cases e <;> simp [userTexts, userTexts_append, ih]

theorem botTexts_reverse (l : List Entry) :
    botTexts l.reverse = (botTexts l).reverse := by
  induction l with
  | nil => rfl
  | cons e es ih => cases e <;> simp [botTexts, botTexts_append, ih]

theorem userTexts_markLastDoc (l : List Entry) :
    userTexts (markLastDoc l) = userTexts l := by
  simp [markLastDoc, userTexts_reverse, userTexts_markLastDocAux]

theorem botTexts_markLastDoc (l : List Entry) :
    botTexts (markLastDoc l) = botTexts l := by
  simp [markLastDoc, botTexts_reverse, botTexts_markLastDocAux]

theorem markLastDoc_append_group (l : List Entry) (b : ChatButton) (bs : List ChatButton) :
    markLastDoc (l ++ [.group (b :: bs)]) = l ++ [.group (markLast (b :: bs))] := by
  simp [markLastDoc, markLastDocAux]

theorem markLastDoc_append_two (l : List Entry) (e : Entry) (b : ChatButton)
    (bs : List ChatButton) :
    markLastDoc (l ++ [e, .group (b :: bs)])
      = l ++ [e, .group (markLast (b :: bs))] := by
  simp [markLastDoc, markLastDocAux]

/-! ### Preservation lemmas for the dispatch effects and turn completion -/

theorem applyResult_userData (st : ClientState) (r : ActionResult) :
    (applyResult st r).userData = st.userData := by
  cases r <;> rfl

theorem applyResult_pending (st : ClientState) (r : ActionResult) :
    (applyResult st r).pending = st.pending := by
  cases r <;> rfl

theorem applyResult_botTexts (st : ClientState) (r : ActionResult) :
    botTexts (applyResult st r).transcript = botTexts st.transcript := by
  cases r <;> simp [applyResult, botTexts_append, botTexts_markLastDoc, botTexts]

theorem applyResult_userTexts (st : ClientState) (r : ActionResult) :
    userTexts (applyResult st r).transcript = userTexts st.transcript := by
  cases r <;> simp [applyResult, userTexts_append, userTexts_markLastDoc, userTexts]

theorem sendFinish_userTexts (st : ClientState) (tid : Nat) (res : FetchResult) :
    userTexts (sendFinish st tid res).transcript = userTexts st.transcript := by
  cases res with
  | timeout => simp [sendFinish, userTexts_append, userTexts_removeFirstTyping, userTexts]
  | netError => simp [sendFinish, userTexts_append, userTexts_removeFirstTyping, userTexts]
  | httpError c =>
      simp [sendFinish, userTexts_append, userTexts_removeFirstTyping,
        userTexts_removeTypingId, userTexts]
  | badJson =>
      simp [sendFinish, userTexts_append, userTexts_removeFirstTyping,
        userTexts_removeTypingId, userTexts]
  | ok body =>
      by_cases hn : isNullish body
      · simp [sendFinish, hn, userTexts_append, userTexts_removeFirstTyping,
          userTexts_removeTypingId, userTexts]
      · simp only [sendFinish, hn]
        cases h : handleAction (body.get "action") (body.get "data") with
        | ok r =>
            simp [h, applyResult_userTexts, userTexts_append,
              userTexts_removeTypingId, userTexts]
        | error e =>
            simp [h, userTexts_append, userTexts_removeFirstTyping,
              userTexts_removeTypingId, userTexts]

theorem sendStart_userData (st : ClientState) (m : JSVal) :
    ((sendStart st m).1).userData = st.userData := rfl

theorem sendStart_mode (st : ClientState) (m : JSVal) :
    ((sendStart st m).1).mode = st.mode := rfl

theorem sendStart_inputDisabled (st : ClientState) (m : JSVal) :
    ((sendStart st m).1).inputDisabled = st.inputDisabled := rfl

theorem sendStart_pending (st : ClientState) (m : JSVal) :
    ((sendStart st m).1).pending = st.pending ++ [⟨st.nextId, m, st.userData⟩] := rfl

theorem groupsL_disable (l : List Entry) :
    groupsL (l.map disableEntry)
      = (groupsL l).map (List.map fun b => { b with disabled := true }) := by
  induction l with
  | nil => rfl
  | cons e es ih => cases e <;> simp [groupsL, disableEntry, ih]

theorem userTexts_removeLoading (st : ClientState) :
    userTexts (removeLoading st).transcript = userTexts st.transcript := by
  simp only [removeLoading]
  split <;> simp [userTexts_removeNthBot]

theorem runTurn_ok_userData (st : ClientState) (m b : JSVal)
    (hgood : isNullish b = false) :
    (runTurn st m (.ok b)).userData = jsOr (b.get "data") (.obj []) := by
  simp only [runTurn, sendFinish, hgood, Bool.false_eq_true, if_false]
  cases h : handleAction (b.get "action") (b.get "data") with
  | ok r => simp [h, applyResult_userData]
  | error e => simp [h]

theorem runTurn_failure_userData (st : ClientState) (m : JSVal) (res : FetchResult)
    (hfail : isFailure res = true) :
    (runTurn st m res).userData = st.userData := by
  cases res with
  | timeout => rfl
  | netError => rfl
  | httpError c => rfl
  | badJson => rfl
  | ok body =>
      have hn : isNullish body = true := hfail
      simp [runTurn, sendFinish, hn, sendStart_userData]

theorem sendFinish_pending (st : ClientState) (tid : Nat) (res : FetchResult) :
    (sendFinish st tid res).pending
      = st.pending.filter fun r => r.rid != tid := by
  cases res with
  | timeout => rfl
  | netError => rfl
  | httpError c => rfl
  | badJson => rfl
  | ok body =>
      by_cases hn : isNullish body
      · simp [sendFinish, hn]
      · simp only [sendFinish, hn, Bool.false_eq_true, if_false]
        cases h : handleAction (body.get "action") (body.get "data") with
        | ok r => simp [h, applyResult_pending]
        | error e => simp [h]

theorem sendFinish_mode_failure (st : ClientState) (tid : Nat) (res : FetchResult)
    (hfail : isFailure res = true) :
    (sendFinish st tid res).mode = st.mode := by
  cases res with
  | timeout => rfl
  | netError => rfl
  | httpError c => rfl
  | badJson => rfl
  | ok body =>
      have hn : isNullish body = true := hfail
      simp [sendFinish, hn]

theorem sendFinish_inputDisabled_failure (st : ClientState) (tid : Nat)
    (res : FetchResult) (hfail : isFailure res = true) :
    (sendFinish st tid res).inputDisabled = st.inputDisabled := by
  cases res with
  | timeout => rfl
  | netError => rfl
  | httpError c => rfl
  | badJson => rfl
  | ok body =>
      have hn : isNullish body = true := hfail
      simp [sendFinish, hn]

theorem sendFinish_botTexts_failure (st : ClientState) (tid : Nat)
    (res : FetchResult) (hfail : isFailure res = true) :
    botTexts (sendFinish st tid res).transcript
      = botTexts st.transcript ++ [diagnosticOf res] := by
  cases res with
  | timeout =>
      simp [sendFinish, diagnosticOf, botTexts_append, botTexts_removeFirstTyping,
        botTexts]
  | netError =>
      simp [sendFinish, diagnosticOf, botTexts_append, botTexts_removeFirstTyping,
        botTexts]
  | httpError c =>
      simp [sendFinish, diagnosticOf, botTexts_append, botTexts_removeFirstTyping,
        botTexts_removeTypingId, botTexts]
  | badJson =>
      simp [sendFinish, diagnosticOf, botTexts_append, botTexts_removeFirstTyping,
        botTexts_removeTypingId, botTexts]
  | ok body =>
      have hn : isNullish body = true := hfail
      simp [sendFinish, hn, diagnosticOf, botTexts_append, botTexts_removeFirstTyping,
        botTexts_removeTypingId, botTexts]

theorem sendStart_botTexts (st : ClientState) (m : JSVal) :
    botTexts ((sendStart st m).1.transcript) = botTexts st.transcript := by
  by_cases h : isStr m "Hello" <;>
    simp [sendStart, h, botTexts_append, botTexts_disable, botTexts]

theorem sendStart_userTexts (st : ClientState) (m : JSVal) :
    userTexts ((sendStart st m).1.transcript)
      = userTexts st.transcript
          ++ (if isStr m "Hello" then [] else [textContentStr m]) := by
  by_cases h : isStr m "Hello" <;>
    simp [sendStart, h, userTexts_append, userTexts_disable, userTexts]

/-! ### Claim theorems -/

/-- C9: a submitted turn is echoed to the transcript as a user message iff
its message differs from "Hello"; any turn whose message is the string
"Hello" (the user's own typed "Hello" included, not only the bootstrap
sentinel) is suppressed, both at submission time and over the whole
completed turn. -/
theorem c9_echo_iff_not_hello (st : ClientState) (m : JSVal) (res : FetchResult) :
    userTexts ((sendStart st m).1.transcript)
      = userTexts st.transcript
          ++ (if isStr m "Hello" then [] else [textContentStr m]) ∧
    userTexts (runTurn st m res).transcript
      = userTexts st.transcript
          ++ (if isStr m "Hello" then [] else [textContentStr m]) := by
  exact ⟨sendStart_userTexts st m,
    by simpa [runTurn, sendFinish_userTexts] using sendStart_userTexts st m⟩

/-- C1: after every sequence of completed turns whose responses parsed, the
client session state `userData` is exactly what the final response carried
(`data.data`, defaulted to the empty object when falsy), independent of the
initial state and of every earlier turn; whenever the server's returned
session state is an object — the spec's SessionState type — it is held
byte for byte, with no merging and no local patching. -/
theorem c1_state_replaced_wholesale (s1 s2 : ClientState)
    (pre : List (JSVal × JSVal)) (m b : JSVal)
    (hgood : isNullish b = false) :
    (runOkTurns s1 (pre ++ [(m, b)])).userData = jsOr (b.get "data") (.obj []) ∧
    (runOkTurns s1 (pre ++ [(m, b)])).userData
      = (runOkTurns s2 (pre ++ [(m, b)])).userData ∧
    (∀ fs, b.get "data" = .obj fs →
      (runOkTurns s1 (pre ++ [(m, b)])).userData = .obj fs) := by
  have hlast : ∀ s : ClientState,
      (runOkTurns s (pre ++ [(m, b)])).userData = jsOr (b.get "data") (.obj []) := by
    intro s
    have : runOkTurns s (pre ++ [(m, b)])
        = runTurn (runOkTurns s pre) m (.ok b) := by
      simp [runOkTurns, List.foldl_append]
    rw [this]
    exact runTurn_ok_userData _ m b hgood
  refine ⟨hlast s1, (hlast s1).trans (hlast s2).symm, ?_⟩
  intro fs hfs
  rw [hlast s1, hfs]
  simp [jsOr, truthy]

/-- C1 witness: a concrete two-turn run from two different initial states
ends with exactly the session state of the second response. -/
theorem c1_witness :
    (runOkTurns initState
        [(.str "a", .obj [("data", .obj [("k", .num 7)])]),
         (.str "b", .obj [("data", .obj [("z", .str "w")])])]).userData
      = .obj [("z", .str "w")] := by
  have h := c1_state_replaced_wholesale initState
    { initState with userData := .obj [("old", .null)] }
    [((.str "a" : JSVal), (.obj [("data", .obj [("k", .num 7)])] : JSVal))]
    (.str "b") (.obj [("data", .obj [("z", .str "w")])]) (by rfl)
  exact h.2.2 [("z", .str "w")] (by rfl)

/-- C2 counterexample: a 2xx response whose body parses as JSON but lacks
every required field (the body is the empty object, "malformed": the spec
defines MalformedResponse as a body missing required fields) is processed
as a successful turn: the session state is replaced (the previous non-empty
state is lost) and the only transcript addition is a bot message reading
"undefined", which is none of the diagnostic messages — refuting the claim
that such a turn leaves Session State unchanged and appends a diagnostic. -/
theorem c2_counterexample :
    (runTurn { initState with userData := .obj [("x", .num 1)] } (.str "m")
        (.ok (.obj []))).userData = .obj [] ∧
    (JSVal.obj [] : JSVal) ≠ .obj [("x", .num 1)] ∧
    botTexts (runTurn { initState with userData := .obj [("x", .num 1)] } (.str "m")
        (.ok (.obj []))).transcript = ["undefined"] ∧
    ("undefined" : String) ∉ [timeoutMsg, networkMsg, genericErrMsg] := by
  refine ⟨rfl, by simp, ?_, by decide⟩
  simp +decide [runTurn, sendStart, sendFinish, initState, removeTypingId,
    removeFirstSuch, handleAction, isStr, truthy, JSVal.get, jsOr, isNullish,
    applyResult, botTexts, textContentStr, disableEntry, List.lookup, Except.map]

/-- C2 (amended): for every failed turn — timeout, network unreachable,
non-2xx HTTP status, a body that fails to parse as JSON, or a body parsing
to JSON null — exactly one user-visible diagnostic message is appended to
the transcript (besides the user's own echo), and Session State,
Interaction Mode, the input enablement and the set of in-flight calls are
all unchanged from before the call, so the turn is abandoned and not
retried and no failure is fatal; a 2xx body that parses as JSON but lacks
the required fields is instead processed as a successful turn. -/
theorem c2_failed_turn_isolated (st : ClientState) (m : JSVal) (res : FetchResult)
    (hfail : isFailure res = true)
    (hfresh : ∀ r ∈ st.pending, r.rid ≠ st.nextId) :
    (runTurn st m res).userData = st.userData ∧
    (runTurn st m res).mode = st.mode ∧
    (runTurn st m res).inputDisabled = st.inputDisabled ∧
    (runTurn st m res).pending = st.pending ∧
    botTexts (runTurn st m res).transcript
      = botTexts st.transcript ++ [diagnosticOf res] ∧
    userTexts (runTurn st m res).transcript
      = userTexts st.transcript
          ++ (if isStr m "Hello" then [] else [textContentStr m]) := by
  refine ⟨runTurn_failure_userData st m res hfail, ?_, ?_, ?_, ?_, ?_⟩
  · rw [runTurn, sendFinish_mode_failure _ _ _ hfail, sendStart_mode]
  · rw [runTurn, sendFinish_inputDisabled_failure _ _ _ hfail, sendStart_inputDisabled]
  · have h2 : (sendStart st m).2 = st.nextId := rfl
    rw [runTurn, sendFinish_pending, sendStart_pending, h2, List.filter_append]
    have h1 : (st.pending.filter fun r => r.rid != st.nextId) = st.pending :=
      List.filter_eq_self.mpr fun r hr => by simpa using hfresh r hr
    rw [h1]
    simp
  · rw [runTurn, sendFinish_botTexts_failure _ _ _ hfail, sendStart_botTexts]
  · rw [runTurn, sendFinish_userTexts, sendStart_userTexts]

theorem sendStart_allDisabled (st : ClientState) (m : JSVal) :
    allBtnsDisabled (sendStart st m).1 = true := by
  by_cases h : isStr m "Hello" <;>
    simp [allBtnsDisabled, groupsOf, sendStart, h, groupsL_append, groupsL_disable,
      groupsL, List.all_map, Function.comp]

theorem buttonAt_allDisabled (st : ClientState) (g i : Nat) (b : ChatButton)
    (hall : allBtnsDisabled st = true) (hb : buttonAt st g i = some b) :
    b.disabled = true := by
  unfold buttonAt at hb
  cases hg : (groupsOf st).get? g with
  | none => rw [hg] at hb; simp at hb
  | some bs =>
      rw [hg] at hb
      rw [Option.some_bind] at hb
      have hmem : bs ∈ groupsOf st := List.get?_mem hg
      have hbm : b ∈ bs := List.get?_mem hb
      have := (List.all_eq_true.mp hall) bs hmem
      exact List.all_eq_true.mp this b hbm

theorem afterSubmit_click_noop (st : ClientState) (m : JSVal) (g i : Nat) :
    step ((sendStart st m).1) (.clickOpt g i) = (sendStart st m).1 := by
  cases hb : buttonAt ((sendStart st m).1) g i with
  | none => simp [step, hb]
  | some b =>
      have hd : b.disabled = true :=
        buttonAt_allDisabled _ g i b (sendStart_allDisabled st m) hb
      simp [step, hb, hd]

/-- C3 counterexample: from the initial state, two free-text submissions in
a row — the second issued while the first call is still pending — are both
accepted, leaving two Transport calls in flight simultaneously: the
free-text input path has no in-flight guard. -/
theorem c3_counterexample :
    (step (step initState (.submitText "hi")) (.submitText "yo")).pending.length
      = 2 := rfl

/-- C3 (amended): submitting a turn disables every currently displayed
option affordance, so no second turn can be started from an already
rendered option button while the call is pending (any option click right
after a submission is a no-op); the free-text path, however, is not guarded
against an in-flight call, and two concurrent Transport calls are
observable when two turns are submitted as free text. -/
theorem c3_single_flight :
    (∀ (st : ClientState) (m : JSVal), allBtnsDisabled (sendStart st m).1 = true) ∧
    (∀ (st : ClientState) (m : JSVal) (g i : Nat),
      step ((sendStart st m).1) (.clickOpt g i) = (sendStart st m).1) ∧
    (step (step initState (.submitText "a")) (.submitText "b")).pending.length
      = 2 :=
  ⟨sendStart_allDisabled, fun st m g i => afterSubmit_click_noop st m g i, rfl⟩

/-- C4 counterexample: `action_data.options` present but not a sequence
(here a truthy empty object): the dispatcher throws a TypeError from
`options.forEach` instead of treating the options as absent and falling
back to free text. -/
theorem c4_counterexample :
    handleAction (.str "show_options") (.obj [("options", .obj [])])
      = .error () := rfl

/-- C4 (amended): options that are present but falsy are treated as absent
(the dispatcher falls through to free text without throwing); options that
are present, truthy and not an array make `addOptionsToChat` throw a
TypeError, which propagates out of the dispatcher and is converted by the
catch block of `sendMessage` into exactly one generic diagnostic; no
options are rendered and the interaction mode is unchanged (the session
state, however, has already been replaced by then). -/
theorem c4_show_options_nonarray (v : JSVal) (st : ClientState) (tid : Nat)
    (hT : truthy v = true) (hA : isArr v = false) :
    handleAction (.str "show_options") (.obj [("options", v)]) = .error () ∧
    (∀ w : JSVal, truthy w = false →
      handleAction (.str "show_options") (.obj [("options", w)]) = .ok .noAction) ∧
    botTexts (sendFinish st tid
        (.ok (.obj [("response", .str "r"), ("action", .str "show_options"),
                    ("data", .obj [("options", v)])]))).transcript
      = botTexts st.transcript ++ ["r", genericErrMsg] ∧
    (sendFinish st tid
        (.ok (.obj [("response", .str "r"), ("action", .str "show_options"),
                    ("data", .obj [("options", v)])]))).mode = st.mode ∧
    groupsOf (sendFinish st tid
        (.ok (.obj [("response", .str "r"), ("action", .str "show_options"),
                    ("data", .obj [("options", v)])]))) = groupsOf st := by
  have herr : handleAction (.str "show_options") (.obj [("options", v)])
      = .error () := by
    cases v <;>
      simp_all +decide [handleAction, isStr, truthy, JSVal.get, List.lookup,
        addOptionsToChat, Except.map, isArr]
  have hresp : (JSVal.obj [("response", .str "r"), ("action", .str "show_options"),
      ("data", .obj [("options", v)])]).get "response" = .str "r" := by
    simp +decide [JSVal.get, List.lookup]
  have hact : (JSVal.obj [("response", .str "r"), ("action", .str "show_options"),
      ("data", .obj [("options", v)])]).get "action" = .str "show_options" := by
    simp +decide [JSVal.get, List.lookup]
  have hdata : (JSVal.obj [("response", .str "r"), ("action", .str "show_options"),
      ("data", .obj [("options", v)])]).get "data" = .obj [("options", v)] := by
    simp +decide [JSVal.get, List.lookup]
  refine ⟨herr, ?_, ?_, ?_, ?_⟩
  · intro w hw
    have hd : truthy (JSVal.obj [("options", w)]) = true := rfl
    have hg : (JSVal.obj [("options", w)]).get "options" = w := by
      simp +decide [JSVal.get, List.lookup]
    simp +decide [handleAction, isStr, hd, hg, hw]
  · simp [sendFinish, isNullish, hresp, hact, hdata, herr, botTexts_append,
      botTexts_removeFirstTyping, botTexts_removeTypingId, botTexts, textContentStr]
  · simp [sendFinish, isNullish, hact, hdata, herr]
  · simp [sendFinish, groupsOf, isNullish, hact, hdata, herr, groupsL_append,
      groupsL_removeFirstTyping, groupsL_removeTypingId, groupsL]

/-- C4 witness: the amended behavior at the concrete non-array options
value used in the counterexample. -/
theorem c4_witness :
    botTexts (sendFinish initState 0
        (.ok (.obj [("response", .str "r"), ("action", .str "show_options"),
                    ("data", .obj [("options", .obj [])])]))).transcript
      = ["r", genericErrMsg] := by
  have h := c4_show_options_nonarray (.obj []) initState 0 rfl rfl
  have h3 := h.2.2.1
  simpa [initState, botTexts] using h3

/-- C5 counterexample: the coercion follows JavaScript `||`, not the
claimed nullish `??`: an entry whose `text` is the empty string (falsy but
not nullish) is rendered with the whole entry as its label — the object
stringifies to "[object Object]" — while the claimed coercion keeps the
empty-string label. -/
theorem c5_counterexample :
    handleAction (.str "show_options")
        (.obj [("options", .arr [.obj [("text", .str ""), ("value", .str "v")]])])
      = .ok (.renderOptions [⟨"[object Object]", .str "v"⟩]) ∧
    specNullishCoerce (.obj [("text", .str ""), ("value", .str "v")])
      = ⟨"", .str "v"⟩ ∧
    ("[object Object]" : String) ≠ "" := by
  refine ⟨?_, ?_, by decide⟩
  · simp +decide [handleAction, addOptionsToChat, coerceOption, jsOr, truthy,
      JSVal.get, isStr, textContentStr, List.lookup, Except.map]
  · simp +decide [specNullishCoerce, isNullish, JSVal.get, List.lookup,
      textContentStr]

/-- C5 (amended): a `show_options` action whose options field is an array
yields one option per entry, each coerced with JavaScript `||` —
`label = entry.text || entry` (stringified) and `value = entry.value ||
entry`, i.e. falling back to the whole entry on any falsy field, not only
on null/undefined — and the resulting mode is ClosedOptions over exactly
those options; in particular `options = ["A","B"]` yields exactly two
options whose labels and values are "A" and "B" respectively. -/
theorem c5_show_options_coercion (xs : List JSVal) :
    handleAction (.str "show_options") (.obj [("options", .arr xs)])
      = .ok (.renderOptions (xs.map coerceOption)) ∧
    (∀ o : JSVal, coerceOption o
      = ⟨textContentStr (if truthy (o.get "text") then o.get "text" else o),
         if truthy (o.get "value") then o.get "value" else o⟩) ∧
    (∀ (st : ClientState) (tid : Nat),
      (sendFinish st tid
          (.ok (.obj [("response", .str "r"), ("action", .str "show_options"),
                      ("data", .obj [("options", .arr xs)])]))).mode
        = .ClosedOptions (xs.map coerceOption)) ∧
    (xs.map coerceOption).length = xs.length ∧
    handleAction (.str "show_options") (.obj [("options", .arr [.str "A", .str "B"])])
      = .ok (.renderOptions [⟨"A", .str "A"⟩, ⟨"B", .str "B"⟩]) := by
  have hall : handleAction (.str "show_options") (.obj [("options", .arr xs)])
      = .ok (.renderOptions (xs.map coerceOption)) := by
    simp +decide [handleAction, addOptionsToChat, isStr, truthy, JSVal.get,
      List.lookup, Except.map]
  have hact : (JSVal.obj [("response", .str "r"), ("action", .str "show_options"),
      ("data", .obj [("options", .arr xs)])]).get "action" = .str "show_options" := by
    simp +decide [JSVal.get, List.lookup]
  have hdata : (JSVal.obj [("response", .str "r"), ("action", .str "show_options"),
      ("data", .obj [("options", .arr xs)])]).get "data"
        = .obj [("options", .arr xs)] := by
    simp +decide [JSVal.get, List.lookup]
  refine ⟨hall, fun o => by simp [coerceOption, jsOr], ?_, by simp, ?_⟩
  · intro st tid
    simp [sendFinish, isNullish, hact, hdata, hall, applyResult]
  · simp +decide [handleAction, addOptionsToChat, coerceOption, jsOr, truthy,
      JSVal.get, isStr, textContentStr, List.lookup, Except.map]

/-- C6: a response whose action tag is absent, null, or not one of the ten
recognized tags dispatches to no branch: the dispatcher returns without
throwing, the resulting interaction mode is free text, and no option group
is rendered — the transcript gains only the reply message. -/
theorem c6_unknown_action_freetext (st : ClientState) (tid : Nat) (body : JSVal)
    (hgood : isNullish body = false)
    (hunrec : ∀ t ∈ recognizedTags, isStr (body.get "action") t = false) :
    handleAction (body.get "action") (body.get "data") = .ok .noAction ∧
    (sendFinish st tid (.ok body)).mode = .FreeText ∧
    groupsOf (sendFinish st tid (.ok body)) = groupsOf st ∧
    (sendFinish st tid (.ok body)).transcript
      = removeTypingId tid st.transcript
          ++ [.bot (textContentStr (body.get "response"))] := by
  have h1 := hunrec "offer_booking" (by simp [recognizedTags])
  have h2 := hunrec "show_existing_appointment" (by simp [recognizedTags])
  have h3 := hunrec "confirm_cancellation" (by simp [recognizedTags])
  have h4 := hunrec "show_options" (by simp [recognizedTags])
  have h5 := hunrec "request_department" (by simp [recognizedTags])
  have h6 := hunrec "request_doctor" (by simp [recognizedTags])
  have h7 := hunrec "request_date" (by simp [recognizedTags])
  have h8 := hunrec "request_time" (by simp [recognizedTags])
  have h9 := hunrec "show_appointments" (by simp [recognizedTags])
  have h10 := hunrec "conversation_end" (by simp [recognizedTags])
  have hda : handleAction (body.get "action") (body.get "data") = .ok .noAction := by
    simp [handleAction, h1, h2, h3, h4, h5, h6, h7, h8, h9, h10]
  refine ⟨hda, ?_, ?_, ?_⟩
  · simp [sendFinish, hgood, hda, applyResult]
  · simp [sendFinish, groupsOf, hgood, hda, applyResult, groupsL_append,
      groupsL_removeTypingId, groupsL]
  · simp [sendFinish, hgood, hda, applyResult]

/-- C6 witness: the unknown tag "foo" results in free-text mode. -/
theorem c6_witness :
    (sendFinish initState 0 (.ok (.obj [("action", .str "foo")]))).mode
      = .FreeText :=
  (c6_unknown_action_freetext initState 0 (.obj [("action", .str "foo")])
    rfl (by decide)).2.1

/-- C2 witness: a concrete timed-out turn leaves the session state intact. -/
theorem c2_witness :
    (runTurn { initState with userData := .obj [("x", .num 1)] } (.str "hi")
        .timeout).userData = .obj [("x", .num 1)] :=
  (c2_failed_turn_isolated { initState with userData := .obj [("x", .num 1)] }
    (.str "hi") .timeout (by rfl) (by simp [initState])).1

/-- C7: on `conversation_end` the inputs are disabled, the mode becomes
ConversationEnded, and a restart option labelled "Start New Conversation"
with value "Hello" carrying the extra restart listener is appended;
activating any restart-marked option resets the session state to the
initial value and re-enables the inputs; and a session-state change can
only come from the completion of a parsed response or from such a restart
click — the restart click is the only explicit reset path. -/
theorem c7_conversation_end_restart :
    (∀ (st : ClientState) (tid : Nat) (body : JSVal),
      isNullish body = false → body.get "action" = .str "conversation_end" →
      (sendFinish st tid (.ok body)).inputDisabled = true ∧
      (sendFinish st tid (.ok body)).mode
        = .ConversationEnded ⟨"Start New Conversation", .str "Hello"⟩ ∧
      (sendFinish st tid (.ok body)).transcript
        = removeTypingId tid st.transcript
            ++ [.bot (textContentStr (body.get "response")),
                .group [⟨"Start New Conversation", .str "Hello", false, true⟩]]) ∧
    (∀ (st : ClientState) (g i : Nat) (b : ChatButton),
      buttonAt st g i = some b → b.disabled = false → b.resetOnClick = true →
      (step st (.clickOpt g i)).userData = initUserData ∧
      (step st (.clickOpt g i)).inputDisabled = false) ∧
    (∀ (st : ClientState) (e : Event),
      (step st e).userData ≠ st.userData →
      (∃ tid body, e = .complete tid (.ok body)) ∨
      (∃ g i, e = .clickOpt g i ∧
        ∃ b, buttonAt st g i = some b ∧ b.resetOnClick = true ∧
          (step st e).userData = initUserData)) := by
  refine ⟨?_, ?_, ?_⟩
  · intro st tid body hgood hact
    have hda : handleAction (body.get "action") (body.get "data")
        = .ok (.convEnd [⟨"Start New Conversation", .str "Hello"⟩]) := by
      rw [hact]
      simp +decide [handleAction, isStr, addOptionsToChat, coerceOption, jsOr,
        truthy, JSVal.get, List.lookup, textContentStr, Except.map]
    refine ⟨?_, ?_, ?_⟩
    · simp [sendFinish, hgood, hda, applyResult]
    · simp [sendFinish, hgood, hda, applyResult]
    · simp [sendFinish, hgood, hda, applyResult, toButtons,
        markLastDoc_append_two, markLast]
  · intro st g i b hb hd hr
    simp [step, hb, hd, hr]
  · intro st e h
    cases e with
    | submitText s =>
        exfalso
        apply h
        simp only [step]
        by_cases h1 : st.inputDisabled
        · simp [h1]
        · by_cases h2 : jsTrim s = ""
          · simp [h1, h2]
          · simp [h1, h2, sendStart_userData]
    | clickOpt g i =>
        cases hb : buttonAt st g i with
        | none => exact absurd (by simp [step, hb]) h
        | some b =>
            by_cases hd : b.disabled
            · exact absurd (by simp [step, hb, hd]) h
            · by_cases hr : b.resetOnClick
              · exact Or.inr ⟨g, i, rfl, b, hb, hr, by simp [step, hb, hd, hr]⟩
              · exact absurd (by simp [step, hb, hd, hr, sendStart_userData]) h
    | complete tid res =>
        cases res with
        | ok body => exact Or.inl ⟨tid, body, rfl⟩
        | timeout =>
            exact absurd (by simp only [step]; split <;> rfl) h
        | netError =>
            exact absurd (by simp only [step]; split <;> rfl) h
        | httpError c =>
            exact absurd (by simp only [step]; split <;> rfl) h
        | badJson =>
            exact absurd (by simp only [step]; split <;> rfl) h

/-- A finished conversation showing only the restart option. -/
def c7demo : ClientState :=
  { initState with
      transcript := [.group [⟨"Start New Conversation", .str "Hello", false, true⟩]] }

/-- C7 witness: a concrete `conversation_end` turn disables the inputs, and
a concrete restart click resets the state and re-enables them. -/
theorem c7_witness :
    (sendFinish initState 0
        (.ok (.obj [("action", .str "conversation_end")]))).inputDisabled = true ∧
    (step c7demo (.clickOpt 0 0)).userData = initUserData ∧
    (step c7demo (.clickOpt 0 0)).inputDisabled = false := by
  have h := c7_conversation_end_restart
  exact ⟨(h.1 initState 0 (.obj [("action", .str "conversation_end")]) rfl rfl).1,
    (h.2.1 c7demo 0 0 ⟨"Start New Conversation", .str "Hello", false, true⟩
      rfl rfl rfl).1,
    (h.2.1 c7demo 0 0 ⟨"Start New Conversation", .str "Hello", false, true⟩
      rfl rfl rfl).2⟩

/-- C8: the bootstrap turn's sentinel request "Hello" is never echoed as a
user-authored message — over the whole bootstrap flow, for every fetch
outcome, the transcript holds no user message at all — and on success its
reply is the first conversational bot message: after the loading-message
cleanup the bot messages are exactly the static welcome followed by the
reply. -/
theorem c8_bootstrap_suppressed (body : JSVal) (r : ActionResult)
    (hgood : isNullish body = false)
    (hdisp : handleAction (body.get "action") (body.get "data") = .ok r) :
    botTexts (bootstrapRun (.ok body)).transcript
      = [welcomeMsg, textContentStr (body.get "response")] ∧
    (∀ res : FetchResult, userTexts (bootstrapRun res).transcript = []) := by
  have hX : initChatStart.1.transcript
      = [.bot welcomeMsg, .bot loadingMsg, .typing 0] := rfl
  have h2 : initChatStart.2 = 0 := rfl
  constructor
  · have hbt : botTexts (sendFinish initChatStart.1 initChatStart.2
        (.ok body)).transcript
        = [welcomeMsg, loadingMsg, textContentStr (body.get "response")] := by
      simp [sendFinish, hgood, hdisp, applyResult_botTexts, botTexts_append,
        botTexts_removeTypingId, hX, botTexts]
    simp [bootstrapRun, removeLoading, hbt, botTexts_removeNthBot, loadingMsg,
      List.eraseIdx]
  · intro res
    rw [bootstrapRun, userTexts_removeLoading, sendFinish_userTexts]
    rfl

/-- C8 witness: a concrete successful bootstrap shows the reply as the only
conversational bot message after the welcome, and no user message. -/
theorem c8_witness :
    botTexts (bootstrapRun (.ok (.obj [("response", .str "Hi")]))).transcript
      = [welcomeMsg, "Hi"] ∧
    userTexts (bootstrapRun .timeout).transcript = [] := by
  have h := c8_bootstrap_suppressed (.obj [("response", .str "Hi")]) .noAction
    rfl rfl
  refine ⟨?_, h.2 .timeout⟩
  have h1 := h.1
  simpa [JSVal.get, textContentStr] using h1

/-- C10: activating the restart option issues the bootstrap turn with a
request built from the session state as it was before the reset: the first
click listener runs the synchronous prefix of `sendMessage("Hello")`, which
captures the current `userData` into the request body, and only then does
the second listener assign the reset value. -/
theorem c10_restart_request_prereset (st : ClientState) (g i : Nat) (b : ChatButton)
    (hb : buttonAt st g i = some b) (hd : b.disabled = false)
    (hr : b.resetOnClick = true) (hv : b.value = .str "Hello") :
    (step st (.clickOpt g i)).pending
      = st.pending ++ [⟨st.nextId, .str "Hello", st.userData⟩] ∧
    (step st (.clickOpt g i)).userData = initUserData ∧
    (step st (.clickOpt g i)).inputDisabled = false := by
  simp [step, hb, hd, hr, hv, sendStart]

/-- A finished conversation with non-initial session state and the restart
option displayed. -/
def c10demo : ClientState :=
  { initState with
      userData := .obj [("flow", .str "done")],
      transcript := [.group [⟨"Start New Conversation", .str "Hello", false, true⟩]] }

/-- C10 witness: the restart click on a concrete finished conversation
sends the pre-reset state while leaving the post-click state reset. -/
theorem c10_witness :
    (step c10demo (.clickOpt 0 0)).pending
      = [⟨0, .str "Hello", .obj [("flow", .str "done")]⟩] ∧
    (step c10demo (.clickOpt 0 0)).userData = initUserData := by
  have h := c10_restart_request_prereset c10demo 0 0
    ⟨"Start New Conversation", .str "Hello", false, true⟩ rfl rfl rfl rfl
  exact ⟨by simpa [c10demo, initState] using h.1, h.2.1⟩

end MedBot
